/-
Verification of the twitch-bot core against its specification.

The Python sources are shallowly embedded: strings are `List Char`
(`Str`), Python dicts are association lists with in-place-overwrite
insertion, and code that can raise is modelled with `Except`.  Each
definition mirrors one function of the sources (`src/message.py`,
`src/command.py`, `src/channel.py`, `src/bot.py`); the theorems at the
end of the file settle the claims C1 .. C10.
-/
import Mathlib

set_option maxRecDepth 10000

abbrev Str := List Char

deriving instance DecidableEq for Except

/-- Python exception kinds that the embedded code can raise. -/
inductive PyErr where
  | indexError
  | valueError
  | assertionError
  | keyError
  | attributeError
  deriving DecidableEq, Repr

/-- Whitespace characters stripped by Python `str.strip()` / `str.split()`. -/
def isPySpace (c : Char) : Bool :=
  c = ' ' || c = '\t' || c = '\n' || c = '\r' || c = '\x0b' || c = '\x0c'

/-- Python `s.strip()`: drop whitespace from both ends. -/
def pyTrim (s : Str) : Str :=
  ((s.dropWhile isPySpace).reverse.dropWhile isPySpace).reverse

/-- Python `s.strip(':')`: drop colons from both ends. -/
def pyStripColon (s : Str) : Str :=
  ((s.dropWhile (· = ':')).reverse.dropWhile (· = ':')).reverse

/-- Python `s.split()` (split on whitespace runs, dropping empty pieces). -/
def wsSplitAux (cur : Str) : Str → List Str
  | [] => if cur.isEmpty then [] else [cur.reverse]
  | c :: cs =>
    if isPySpace c then
      if cur.isEmpty then wsSplitAux [] cs else cur.reverse :: wsSplitAux [] cs
    else wsSplitAux (c :: cur) cs

/-- Python `s.split()` on a character-list string. -/
def wsSplit (s : Str) : List Str := wsSplitAux [] s

/-- Python `s.split(' ', n)`: split on single spaces, at most `n` splits,
keeping empty pieces. -/
def splitSpaceMax : Nat → Str → List Str
  | 0, s => [s]
  | n + 1, s =>
    let w := s.takeWhile (· ≠ ' ')
    let rest := s.dropWhile (· ≠ ' ')
    match rest with
    | [] => [w]
    | _ :: rest' => w :: splitSpaceMax n rest'

/-- Python `s.split(' ')` (unbounded; a string of length `L` has at most `L`
separators, so `L` splits are enough). -/
def splitSpaceAll (s : Str) : List Str := splitSpaceMax s.length s

/-- Python `haystack.find(needle)` on character lists: index of the first
occurrence of `needle` as a contiguous substring. -/
def findSub (needle : Str) : Str → Option Nat
  | [] => if needle.isPrefixOf ([] : Str) then some 0 else none
  | c :: cs =>
    if needle.isPrefixOf (c :: cs) then some 0
    else (findSub needle cs).map (· + 1)

/-- Python dict insertion `d[k] = v`: overwrite in place, else append. -/
def dictInsert {α : Type} (k : Str) (v : α) : List (Str × α) → List (Str × α)
  | [] => [(k, v)]
  | (k', v') :: rest =>
    if k' = k then (k, v) :: rest else (k', v') :: dictInsert k v rest

/-- Python dict lookup `d.get(k)`. -/
def dictGet {α : Type} (k : Str) : List (Str × α) → Option α
  | [] => none
  | (k', v') :: rest => if k' = k then some v' else dictGet k rest

/-- Python `k in d`. -/
def dictContains {α : Type} (k : Str) (d : List (Str × α)) : Bool :=
  (dictGet k d).isSome

/- ## Command grammar (src/command.py, `Parameters`) -/

/-- `command.Parameter`: one parameter descriptor of a command's grammar. -/
structure Parameter where
  name : Str := []
  required : Bool := true
  perm : Nat := 0
  options : Option (List Str) := none
  remainder : Bool := false
  deriving DecidableEq, Repr

/-- One entry of `Parameters.entries`: a literal token or a parameter. -/
inductive Entry where
  | lit (s : Str)
  | param (p : Parameter)
  deriving DecidableEq, Repr

/-- `command.ParameterError`, by the message raised. -/
inductive ParamErr where
  | optionalBeforeRequired
  | remainderNotLast
  | duplicate
  | keyError
  deriving DecidableEq, Repr

/-- `command.ArgumentError`, by the message raised. -/
inductive ArgErr where
  | noArgs
  | countMismatch
  | formatError
  | badOption
  | insufficientPerm
  deriving DecidableEq, Repr

/-- `{str(perm): perm for perm in CommandPerm}`: permission names to values. -/
def rolesLookup (s : Str) : Except ParamErr Nat :=
  if s = "none".data then .ok 0
  else if s = "sub".data then .ok 1
  else if s = "vip".data then .ok 2
  else if s = "mod".data then .ok 4
  else if s = "admin".data then .ok 8
  else if s = "owner".data then .ok 16
  else .error .keyError

/-- Python `tag.split(c, 1)` as a pair (before first `c`, after it), when
`c` occurs in `tag`. -/
def splitFirst (c : Char) (s : Str) : Option (Str × Str) :=
  if c ∈ s then some (s.takeWhile (· ≠ c), (s.dropWhile (· ≠ c)).drop 1)
  else none

/-- The name of a parameter entry, if the entry is one. -/
def entryName : Entry → Option Str
  | .lit _ => none
  | .param p => some p.name

/-- Whether an entry is a non-required parameter
(`not param.required for param in params if isinstance(param, Parameter)`). -/
def entryOptionalParam : Entry → Bool
  | .lit _ => false
  | .param p => !p.required

/-- Loop body of `Parameters.from_syntax`: process the clauses in order,
carrying the clause index `i` and the total clause count `n`. -/
def fromSynAux (n : Nat) : Nat → List Str → List Entry → Except ParamErr (List Entry)
  | _, [], acc => .ok acc
  | i, clause :: rest, acc =>
    if (("<".data.isPrefixOf clause || "[".data.isPrefixOf clause) &&
        (">".data.isSuffixOf clause || "]".data.isSuffixOf clause)) then
      let required := "<".data.isPrefixOf clause
      if required && acc.any entryOptionalParam then
        .error .optionalBeforeRequired
      else
        let tag := (clause.drop 1).dropLast
        match (match splitFirst ':' tag with
               | some (permName, tag') =>
                 (rolesLookup permName).map fun p => (p, tag')
               | none => .ok (0, tag)) with
        | .error e => .error e
        | .ok (perm, tag) =>
          match splitFirst '=' tag with
          | some (nm, opts) =>
            let p : Parameter :=
              { name := nm, perm := perm, required := required,
                options := some (opts.splitOn '|') }
            fromSynAux n (i + 1) rest (acc ++ [.param p])
          | none =>
            if '+' ∈ tag then
              if i ≠ n - 1 then .error .remainderNotLast
              else
                let p : Parameter :=
                  { name := tag.dropLast, perm := perm, required := required,
                    remainder := true }
                fromSynAux n (i + 1) rest (acc ++ [.param p])
            else
              let p : Parameter :=
                { name := tag, perm := perm, required := required }
              fromSynAux n (i + 1) rest (acc ++ [.param p])
    else fromSynAux n (i + 1) rest (acc ++ [.lit clause])

/-- `Parameters.from_syntax`: compile a syntax string into grammar entries. -/
def fromSyn (syn : Option Str) : Except ParamErr (List Entry) :=
  match syn with
  | none => .ok []
  | some s =>
    if s.isEmpty then .ok []
    else
      let clauses := wsSplit s
      match fromSynAux clauses.length 0 clauses [] with
      | .error e => .error e
      | .ok params =>
        if ((params.filterMap entryName).dedup).length ≠ params.length then
          .error .duplicate
        else .ok params

/-- Whether an entry counts toward `min_args`
(`param.required if isinstance(param, Parameter) else True`). -/
def entryRequiredOrLit : Entry → Bool
  | .lit _ => true
  | .param p => p.required

/-- Whether the last entry is a remainder parameter. -/
def lastIsRemainder (entries : List Entry) : Bool :=
  match entries.getLast? with
  | some (.param p) => p.remainder
  | _ => false

/-- Truthiness of `param.options` (`None` and the empty set are falsy). -/
def optionsTruthy (o : Option (List Str)) : Bool :=
  match o with
  | none => false
  | some os => !os.isEmpty

/-- Lock-step walk of `parse_args` over pieces and entries. -/
def argsLoop (role : Nat) : List (Str × Entry) → List (Str × Str) →
    Except ArgErr (List (Str × Str))
  | [], matched => .ok matched
  | (arg, .lit l) :: rest, matched =>
    if arg ≠ l then .error .formatError else argsLoop role rest matched
  | (arg, .param p) :: rest, matched =>
    if optionsTruthy p.options && !(p.options.getD []).contains arg then
      .error .badOption
    else if role < p.perm then
      if p.required then .error .insufficientPerm
      else argsLoop role rest matched
    else argsLoop role rest (dictInsert p.name arg matched)

/-- `Parameters.parse_args`: parse an argument string against the entries. -/
def parse_args (entries : List Entry) (arg_string : Option Str) (role : Nat) :
    Except ArgErr (List (Str × Str)) :=
  if entries.isEmpty then .ok []
  else
    match arg_string with
    | none => if entries.any entryRequiredOrLit then .error .noArgs else .ok []
    | some s =>
      if s.isEmpty then
        if entries.any entryRequiredOrLit then .error .noArgs else .ok []
      else
        let args :=
          if lastIsRemainder entries then
            splitSpaceMax (entries.length - 1) (pyTrim s)
          else splitSpaceAll (pyTrim s)
        let min_args := (entries.filter entryRequiredOrLit).length
        let max_args := entries.length
        if args.length < min_args || max_args < args.length then
          .error .countMismatch
        else argsLoop role (args.zip entries) []

/- ## IRC message parsing (src/message.py) -/

/-- Tag dictionary of an IRC message. -/
abbrev Tags := List (Str × Str)

/-- The `Message` class hierarchy of `src/message.py` as a closed sum.
Field order follows each class's constructor. -/
inductive Message where
  | base (raw type_ : Str)
  | login (raw type_ : Str)
  | capabilities (raw type_ : Str) (caps : List Str)
  | ping (raw type_ : Str)
  | reconnect (raw type_ : Str)
  | join (raw type_ channel user : Str)
  | part (raw type_ channel user : Str)
  | names (raw type_ channel : Str) (users : List Str)
  | endOfNames (raw type_ channel : Str)
  | notice (raw type_ channel message : Str) (tags : Tags)
  | userstate (raw type_ channel : Str) (tags : Tags)
  | roomstate (raw type_ channel : Str) (tags : Tags)
  | clearchat (raw type_ channel : Str) (user : Option Str) (tags : Tags)
  | clearmsg (raw type_ channel message : Str) (tags : Tags)
  | usernotice (raw type_ channel : Str) (message : Option Str) (tags : Tags)
  | whisper (raw type_ from_ to_ message : Str) (tags : Tags)
  | chat (raw type_ channel user message : Str) (tags : Tags)
  deriving DecidableEq, Repr

/-- Python `raw.split(" :")`: split on the two-character delimiter,
left to right, non-overlapping. -/
def splitDataSep : Str → List Str
  | [] => [[]]
  | ' ' :: ':' :: rest => [] :: splitDataSep rest
  | c :: rest =>
    match splitDataSep rest with
    | [] => [[c]]
    | h :: t => (c :: h) :: t

/-- Python `tag.split('=')` at the LAST `=` (`re.fullmatch r"^(.*)=(.*)$"`
with greedy groups), if `=` occurs at all. -/
def splitLastEq (tag : Str) : Option (Str × Str) :=
  match (tag.reverse.dropWhile (· ≠ '=')) with
  | [] => none
  | _ :: rkey => some (rkey.reverse, (tag.reverse.takeWhile (· ≠ '=')).reverse)

/-- `MessageParser._parse_tags`. -/
def parse_tags (raw_tags : Str) : Tags :=
  (raw_tags.splitOn ';').foldl
    (fun acc tg =>
      match splitLastEq tg with
      | some (k, v) => dictInsert k v acc
      | none => acc)
    []

/-- Characters matched by `[a-z0-9_]` in `_parse_user`'s pattern. -/
def isWordC (c : Char) : Bool :=
  ('a' ≤ c && c ≤ 'z') || ('0' ≤ c && c ≤ '9') || c = '_'

/-- `MessageParser._parse_user`: match `name!name@name` at the start of the
command segment, rejecting server pseudo-users. -/
def parse_user (command : Str) : Option Str :=
  if "jtv ".data.isPrefixOf command || "tmi.twitch.tv ".data.isPrefixOf command
  then none
  else
    let w := command.takeWhile isWordC
    let rest := command.dropWhile isWordC
    if w.isEmpty then none
    else if (('!' :: w) ++ ('@' :: w)).isPrefixOf rest then some w
    else none

/-- `MessageParser._parse_type`: the capability-acknowledgement phrase, or
the second whitespace token (raising `IndexError` when there is none). -/
def parse_type (command : Str) : Except PyErr Str :=
  if (findSub "CAP * ACK".data command).isSome then .ok "CAP * ACK".data
  else
    match wsSplit command with
    | _ :: t :: _ => .ok t
    | _ => .error .indexError

/-- `MessageParser._parse_params`: everything after the first occurrence of
the type plus one character (`command[command.index(msg_type)+1+len(msg_type):]`),
`None` when empty. -/
def parse_params (command msg_type : Str) : Except PyErr (Option Str) :=
  match findSub msg_type command with
  | none => .error .valueError
  | some i =>
    let p := command.drop (i + 1 + msg_type.length)
    .ok (if p.isEmpty then none else some p)

/-- `MessageParser._parse_channel`: substring after `#` up to the next space. -/
def parse_channel (params : Option Str) : Option Str :=
  match params with
  | none => none
  | some p =>
    match findSub ['#'] p with
    | none => none
    | some i =>
      match (findSub [' '] (p.drop i)).map (· + i) with
      | none => p.drop (i + 1)
      | some j => (p.take j).drop (i + 1)

/-- `MessageParser._parse_message`: rejoin the trailing segments, rewrite
CTCP ACTION to `/me`, and strip; `message[0]` raises on an empty join. -/
def parse_message (data : List Str) : Except PyErr (Option Str) :=
  match data with
  | [] => .ok none
  | _ =>
    let m := List.intercalate " :".data data
    match m with
    | [] => .error .indexError
    | c :: _ =>
      let m' :=
        if c.toNat = 1 && decide ((m.drop 1).take 6 = "ACTION".data) then
          "/me".data ++ (m.drop 7).dropLast
        else m
      .ok (some (pyTrim m'))

/-- Python truthiness of an optional string (`None` and `""` are falsy). -/
def truthy : Option Str → Bool
  | none => false
  | some s => !s.isEmpty

/-- `case "CAP * ACK"`: `assert message`, then split capabilities dropping
the ten-character scheme prefix of each word. -/
def mkCapabilities (raw t : Str) (message : Option Str) : Except PyErr Message :=
  match message with
  | some m =>
    if m.isEmpty then .error .assertionError
    else .ok (.capabilities raw t ((wsSplit m).map (·.drop 10)))
  | none => .error .assertionError

/-- `case "353"`: `assert channel and message`. -/
def mkNames (raw t : Str) (channel message : Option Str) : Except PyErr Message :=
  match channel, message with
  | some ch, some m =>
    if ch.isEmpty || m.isEmpty then .error .assertionError
    else .ok (.names raw t ch (wsSplit m))
  | _, _ => .error .assertionError

/-- `case "JOIN"`: `assert channel and user`. -/
def mkJoin (raw t : Str) (channel user : Option Str) : Except PyErr Message :=
  match channel, user with
  | some ch, some u =>
    if ch.isEmpty || u.isEmpty then .error .assertionError
    else .ok (.join raw t ch u)
  | _, _ => .error .assertionError

/-- `case "PART"`: `assert channel and user`. -/
def mkPart (raw t : Str) (channel user : Option Str) : Except PyErr Message :=
  match channel, user with
  | some ch, some u =>
    if ch.isEmpty || u.isEmpty then .error .assertionError
    else .ok (.part raw t ch u)
  | _, _ => .error .assertionError

/-- `case "366"`: `assert channel`. -/
def mkEndOfNames (raw t : Str) (channel : Option Str) : Except PyErr Message :=
  match channel with
  | some ch =>
    if ch.isEmpty then .error .assertionError else .ok (.endOfNames raw t ch)
  | none => .error .assertionError

/-- `case "NOTICE"`: `assert channel and message`. -/
def mkNotice (raw t : Str) (channel message : Option Str) (tags : Tags) :
    Except PyErr Message :=
  match channel, message with
  | some ch, some m =>
    if ch.isEmpty || m.isEmpty then .error .assertionError
    else .ok (.notice raw t ch m tags)
  | _, _ => .error .assertionError

/-- `case "USERSTATE"`: `assert channel`. -/
def mkUserstate (raw t : Str) (channel : Option Str) (tags : Tags) :
    Except PyErr Message :=
  match channel with
  | some ch =>
    if ch.isEmpty then .error .assertionError else .ok (.userstate raw t ch tags)
  | none => .error .assertionError

/-- `case "ROOMSTATE"`: `assert channel`. -/
def mkRoomstate (raw t : Str) (channel : Option Str) (tags : Tags) :
    Except PyErr Message :=
  match channel with
  | some ch =>
    if ch.isEmpty then .error .assertionError else .ok (.roomstate raw t ch tags)
  | none => .error .assertionError

/-- `case "CLEARCHAT"`: `assert channel`; the trailing message (may be
absent) is the banned user. -/
def mkClearchat (raw t : Str) (channel message : Option Str) (tags : Tags) :
    Except PyErr Message :=
  match channel with
  | some ch =>
    if ch.isEmpty then .error .assertionError
    else .ok (.clearchat raw t ch message tags)
  | none => .error .assertionError

/-- `case "CLEARMSG"`: `assert channel and message`. -/
def mkClearmsg (raw t : Str) (channel message : Option Str) (tags : Tags) :
    Except PyErr Message :=
  match channel, message with
  | some ch, some m =>
    if ch.isEmpty || m.isEmpty then .error .assertionError
    else .ok (.clearmsg raw t ch m tags)
  | _, _ => .error .assertionError

/-- `case "USERNOTICE"`: `assert channel`; the trailing message may be absent. -/
def mkUsernotice (raw t : Str) (channel message : Option Str) (tags : Tags) :
    Except PyErr Message :=
  match channel with
  | some ch =>
    if ch.isEmpty then .error .assertionError
    else .ok (.usernotice raw t ch message tags)
  | none => .error .assertionError

/-- `case "WHISPER"`: `assert user and params and message`; sender is the
user, recipient is the params string. -/
def mkWhisper (raw t : Str) (user params message : Option Str) (tags : Tags) :
    Except PyErr Message :=
  match user, params, message with
  | some u, some p, some m =>
    if u.isEmpty || p.isEmpty || m.isEmpty then .error .assertionError
    else .ok (.whisper raw t u p m tags)
  | _, _, _ => .error .assertionError

/-- `case "PRIVMSG"`: `assert channel and user and message`. -/
def mkChat (raw t : Str) (channel user message : Option Str) (tags : Tags) :
    Except PyErr Message :=
  match channel, user, message with
  | some ch, some u, some m =>
    if ch.isEmpty || u.isEmpty || m.isEmpty then .error .assertionError
    else .ok (.chat raw t ch u m tags)
  | _, _, _ => .error .assertionError

/-- The `match type_` statement of `MessageParser.from_raw`, in source order. -/
def buildMessage (raw t : Str) (user params channel message : Option Str)
    (tags : Tags) : Except PyErr Message :=
  if t = "001".data then .ok (.login raw t)
  else if t = "CAP * ACK".data then mkCapabilities raw t message
  else if t = "353".data then mkNames raw t channel message
  else if t = "RECONNECT".data then .ok (.reconnect raw t)
  else if t = "JOIN".data then mkJoin raw t channel user
  else if t = "PART".data then mkPart raw t channel user
  else if t = "366".data then mkEndOfNames raw t channel
  else if t = "NOTICE".data then mkNotice raw t channel message tags
  else if t = "USERSTATE".data then mkUserstate raw t channel tags
  else if t = "ROOMSTATE".data then mkRoomstate raw t channel tags
  else if t = "CLEARCHAT".data then mkClearchat raw t channel message tags
  else if t = "CLEARMSG".data then mkClearmsg raw t channel message tags
  else if t = "USERNOTICE".data then mkUsernotice raw t channel message tags
  else if t = "WHISPER".data then mkWhisper raw t user params message tags
  else if t = "PRIVMSG".data then mkChat raw t channel user message tags
  else .ok (.base raw t)

/-- The part of `from_raw` after the optional tag segment was removed:
pop the command segment, short-circuit keepalives, then parse user, type,
params, channel and trailing message, and build the typed variant. -/
def from_raw_core (raw : Str) (tags : Tags) (data1 : List Str) :
    Except PyErr Message :=
  match data1 with
  | [] => .error .indexError
  | c0 :: data2 =>
    let command := pyStripColon c0
    if "PING".data.isPrefixOf command then .ok (.ping raw (command.take 4))
    else
      let user := parse_user command
      match parse_type command with
      | .error e => .error e
      | .ok t =>
        match parse_params command t with
        | .error e => .error e
        | .ok params =>
          let channel := parse_channel params
          match parse_message data2 with
          | .error e => .error e
          | .ok message => buildMessage raw t user params channel message tags

/-- `MessageParser.from_raw`: parse one raw IRC line.  List pops that can
fail and the helpers' `assert`s surface as `PyErr`s. -/
def from_raw (raw : Str) : Except PyErr Message :=
  let data := splitDataSep raw
  match data with
  | [] => .error .indexError
  | d0 :: rest =>
    if "@".data.isPrefixOf d0 then
      from_raw_core raw (parse_tags (d0.drop 1)) rest
    else from_raw_core raw [] (d0 :: rest)

/-- The non-base variants carry their asserted required fields nonempty. -/
def wellFormed : Message → Prop
  | .join _ _ ch u => ch ≠ [] ∧ u ≠ []
  | .part _ _ ch u => ch ≠ [] ∧ u ≠ []
  | .names _ _ ch _ => ch ≠ []
  | .endOfNames _ _ ch => ch ≠ []
  | .notice _ _ ch m _ => ch ≠ [] ∧ m ≠ []
  | .userstate _ _ ch _ => ch ≠ []
  | .roomstate _ _ ch _ => ch ≠ []
  | .clearchat _ _ ch _ _ => ch ≠ []
  | .clearmsg _ _ ch m _ => ch ≠ [] ∧ m ≠ []
  | .usernotice _ _ ch _ _ => ch ≠ []
  | .whisper _ _ f p m _ => f ≠ [] ∧ p ≠ [] ∧ m ≠ []
  | .chat _ _ ch u m _ => ch ≠ [] ∧ u ≠ [] ∧ m ≠ []
  | _ => True

/- ## Permissions, cooldowns, denial (src/command.py, src/bot.py) -/

/-- `DenialReason` bit values: GLOBAL_COOLDOWN, USER_COOLDOWN, PERMISSION,
BLACKLIST are 1, 2, 4, 8; `UserRole`/`CommandPerm` values are
SUB 1, VIP 2, MOD 4, ADMIN 8, OWNER 16.  `CommandPerm.check_role`. -/
def check_role (perm role : Nat) : Nat :=
  if role &&& 16 ≠ 0 then 0
  else if (if perm = 1 then role &&& 1 ≠ 0 else perm ≤ role) then 0 else 4

/-- `Command.check_cooldowns`: global bit from the channel table, user bit
from the per-user table. -/
def check_cooldowns (chanCds : List (Str × Int))
    (userCds : List (Str × List (Str × Int))) (name user : Str) : Nat :=
  (if dictContains name chanCds then 1 else 0) |||
    (if (match dictGet user userCds with
         | some m => dictContains name m
         | none => false) then 2 else 0)

/-- `Ranks.check_blacklist`. -/
def check_blacklist (blacklist : List Str) (user : Str) : Nat :=
  if user ∈ blacklist then 8 else 0

/-- The combined denial reason computed inside `Command.check_command`
(`check_cooldowns | perm.check_role | check_blacklist`). -/
def check_command_reason (chanCds : List (Str × Int))
    (userCds : List (Str × List (Str × Int))) (blacklist : List Str)
    (name user : Str) (perm role : Nat) : Nat :=
  check_cooldowns chanCds userCds name user ||| check_role perm role |||
    check_blacklist blacklist user

/-- One output emitted by `Command.handle_denial`: the two cooldown
notices go to the console, the permission notice to the channel's chat. -/
inductive Output where
  | consoleGlobalCd (secs : Int)
  | consoleUserCd (secs : Int)
  | chatInsufficientPerms (user : Str) (perm : Nat)
  deriving DecidableEq, Repr

/-- Whether an output is a user-visible chat message. -/
def isChat : Output → Bool
  | .chatInsufficientPerms _ _ => true
  | _ => false

/-- `Command.handle_denial`: a reason containing the BLACKLIST bit returns
immediately; otherwise cooldown bits print console notices (reading the
cooldown tables, which can raise `KeyError`) and the PERMISSION bit sends
a chat message unless the command is hidden. -/
def handle_denial (chanCds : List (Str × Int))
    (userCds : List (Str × List (Str × Int))) (name user : Str)
    (hide : Bool) (perm : Nat) (reason : Nat) (now : Int) :
    Except PyErr (List Output) :=
  if reason &&& 8 ≠ 0 then .ok []
  else
    match ((if reason &&& 1 ≠ 0 then
             match dictGet name chanCds with
             | none => .error PyErr.keyError
             | some v => .ok [Output.consoleGlobalCd (v - now)]
           else .ok []) : Except PyErr (List Output)) with
    | .error e => .error e
    | .ok g =>
      match ((if reason &&& 2 ≠ 0 then
               match dictGet name ((dictGet user userCds).getD []) with
               | none => .error PyErr.keyError
               | some v => .ok [Output.consoleUserCd (v - now)]
             else .ok []) : Except PyErr (List Output)) with
      | .error e => .error e
      | .ok u =>
        let p := if reason &&& 4 ≠ 0 && !hide then
                   [Output.chatInsufficientPerms user perm]
                 else []
        .ok (g ++ u ++ p)

/- ## Command execution (src/command.py, `Command.execute`) -/

/-- Observable outcome of `Command.execute`: whether the command body ran,
whether an exception was caught by the broad handler, and whether
`apply_cooldown` was invoked. -/
structure ExecRes where
  bodyInvoked : Bool
  errorCaught : Bool
  cooldownApplied : Bool
  deriving DecidableEq, Repr

/-- `Command.execute`: parse the arguments, run the body, and on the
non-error path apply cooldowns for roles below MOD (4).  `bodyRaises`
abstracts the command body raising an exception. -/
def execute (entries : List Entry) (arg_string : Option Str) (role : Nat)
    (bodyRaises : Bool) : ExecRes :=
  match parse_args entries arg_string role with
  | .error _ => ⟨false, true, false⟩
  | .ok _ =>
    if bodyRaises then ⟨true, true, false⟩
    else ⟨true, false, decide (role < 4)⟩

/- ## Outbound messenger (src/channel.py, `Messenger`) -/

/-- The invisible differentiator `"\U000E0000"` appended to duplicates. -/
def dupChar : Char := Char.ofNat 0xE0000

/-- State of one channel's `Messenger` together with the activity flags
`_submit` reads (`bot.active`, `channel.active`, `channel.live`,
`channel.active_online`, `channel.active_offline`, `channel.mod`). -/
structure MState where
  botActive : Bool
  chanActive : Bool
  live : Bool
  activeOnline : Bool
  activeOffline : Bool
  mod : Bool
  sent : Nat
  lastMessage : Str
  timeout : Int
  deriving DecidableEq, Repr

/-- `Messenger.ratelimit`: 100 with elevated (moderator) privilege, else 20. -/
def ratelimit (st : MState) : Nat := if st.mod then 100 else 20

/-- `BaseChannel.activity_allowed`. -/
def activity_allowed (st : MState) : Bool :=
  st.live && st.activeOnline || !st.live && st.activeOffline

/-- Result of `Messenger._submit`: the new state, the message handed to the
transport (if any), and whether the rate-limit warning was logged. -/
structure SubmitRes where
  st : MState
  delivered : Option Str
  warned : Bool
  deriving DecidableEq, Repr

/-- `Messenger._submit`: suffix duplicates, check the activity gate, then
either deliver (incrementing `sent`) or drop with a warning. -/
def submit (st : MState) (message : Str) : SubmitRes :=
  let message := if message = st.lastMessage then message ++ [dupChar] else message
  if st.botActive && st.chanActive && activity_allowed st then
    if st.sent < ratelimit st then
      ⟨{ st with lastMessage := message, sent := st.sent + 1 }, some message, false⟩
    else ⟨st, none, true⟩
  else ⟨st, none, false⟩

/-- `Messenger.send`: enqueue non-empty messages (always accepted). -/
def send (q : List Str) (message : Str) : List Str :=
  if message.isEmpty then q else q ++ [message]

/-- The draining part of `Messenger.message_queue`: pop each queued message
in FIFO order and `_submit` it.  Returns the final state and the messages
actually handed to the transport, in order. -/
def drainGo : MState → List Str → MState × List Str
  | st, [] => (st, [])
  | st, m :: rest =>
    let r := submit st m
    let (st', ds) := drainGo r.st rest
    (st', r.delivered.toList ++ ds)

/-- `Messenger.message_queue`: a negative timeout suspends the queue
indefinitely (nothing is processed); otherwise the timeout counts down to
zero and the queue drains. -/
def drain (st : MState) (q : List Str) : MState × List Str :=
  if st.timeout < 0 then (st, [])
  else drainGo { st with timeout := 0 } q

/-- `default.reset_sent`: the maintenance tick resetting the window counter. -/
def resetSent (st : MState) : MState := { st with sent := 0 }

/- ## Dispatch loop (src/bot.py, `BaseBot.message_handler`) -/

/-- The `type_` field of a message. -/
def typeOf : Message → Str
  | .base _ t => t
  | .login _ t => t
  | .capabilities _ t _ => t
  | .ping _ t => t
  | .reconnect _ t => t
  | .join _ t _ _ => t
  | .part _ t _ _ => t
  | .names _ t _ _ => t
  | .endOfNames _ t _ => t
  | .notice _ t _ _ _ => t
  | .userstate _ t _ _ => t
  | .roomstate _ t _ _ => t
  | .clearchat _ t _ _ _ => t
  | .clearmsg _ t _ _ _ => t
  | .usernotice _ t _ _ _ => t
  | .whisper _ t _ _ _ _ => t
  | .chat _ t _ _ _ _ => t

/-- The `channel` attribute of a message, for the variants that have one. -/
def channelOf : Message → Option Str
  | .join _ _ ch _ => some ch
  | .part _ _ ch _ => some ch
  | .names _ _ ch _ => some ch
  | .endOfNames _ _ ch => some ch
  | .notice _ _ ch _ _ => some ch
  | .userstate _ _ ch _ => some ch
  | .roomstate _ _ ch _ => some ch
  | .clearchat _ _ ch _ _ => some ch
  | .clearmsg _ _ ch _ _ => some ch
  | .usernotice _ _ ch _ _ => some ch
  | .chat _ _ ch _ _ _ => some ch
  | _ => none

/-- Per-channel user state touched by `_handle_join`. -/
structure ChanUsers where
  users : List Str
  deriving DecidableEq, Repr

/-- Message types ignored by `message_handler`. -/
def ignoredTypes : List Str :=
  ["002".data, "003".data, "004".data, "375".data, "372".data,
   "376".data, "GLOBALUSERSTATE".data, "HOSTTARGET".data]

/-- Handler-table keys whose handler takes only the message. -/
def directTypes : List Str :=
  ["001".data, "CAP * ACK".data, "PING".data, "RECONNECT".data, "WHISPER".data]

/-- Handler-table keys whose handler takes `(channel, msg)`. -/
def channelTypes : List Str :=
  ["353".data, "JOIN".data, "PART".data, "366".data, "NOTICE".data,
   "USERSTATE".data, "ROOMSTATE".data, "CLEARCHAT".data, "CLEARMSG".data,
   "USERNOTICE".data, "PRIVMSG".data]

/-- Routing outcome of `BaseBot.message_handler`: either the message type
is dropped, a direct handler runs, a channel handler is invoked with the
result of `self.channels.get(msg.channel, None)`, or the unhandled type is
logged. -/
inductive DispatchOutcome where
  | ignored
  | direct (t : Str)
  | channelHandler (t : Str) (channel : Option ChanUsers)
  | unhandledLogged
  deriving DecidableEq, Repr

/-- `BaseBot.message_handler`'s routing: note that for a channel-carrying
type the handler is invoked unconditionally, with `none` when the channel
is not tracked. -/
def message_handler (channels : List (Str × ChanUsers)) (msg : Message) :
    Except PyErr DispatchOutcome :=
  let t := typeOf msg
  if t ∈ ignoredTypes then .ok .ignored
  else if t ∈ directTypes then .ok (.direct t)
  else if t ∈ channelTypes then
    match channelOf msg with
    | none => .error .attributeError
    | some ch => .ok (.channelHandler t (dictGet ch channels))
  else .ok .unhandledLogged

/-- `BaseBot._handle_join`: `channel.userdata.users.add(msg.user)`;
dereferencing a `None` channel raises `AttributeError`. -/
def handle_join (channel : Option ChanUsers) (user : Str) :
    Except PyErr ChanUsers :=
  match channel with
  | none => .error .attributeError
  | some c => .ok ⟨if user ∈ c.users then c.users else c.users ++ [user]⟩

/- ## Command registry and triggering (src/command.py, `Command`) -/

/-- The fields of `Command` that name lookup and triggering read. -/
structure Cmd where
  name : Str
  pfx : Option Str
  aliases : List Str
  active : Bool
  disabled : List Str
  deriving DecidableEq, Repr

/-- `Command.trigger`: the command's own prefx if not `None`, else the
process-wide default, concatenated with the name. -/
def trigger (dp : Str) (c : Cmd) : Str := c.pfx.getD dp ++ c.name

/-- `Command.__init__`'s registration: insert the command under its name,
then under each alias. -/
def register (reg : List (Str × Cmd)) (c : Cmd) : List (Str × Cmd) :=
  c.aliases.foldl (fun r a => dictInsert a c r) (dictInsert c.name c reg)

/-- `Command.get_by_name`. -/
def get_by_name (reg : List (Str × Cmd)) (n : Str) : Option Cmd :=
  dictGet n reg

/-- `Command.get_by_trigger`: first registry value whose trigger equals
the string. -/
def get_by_trigger (dp : Str) (reg : List (Str × Cmd)) (t : Str) : Option Cmd :=
  (reg.map Prod.snd).find? (fun c => trigger dp c = t)

/-- `msg.message.split(' ', 1)[0]`: the candidate trigger token. -/
def first_token (m : Str) : Str :=
  match splitSpaceMax 1 m with
  | [] => []
  | w :: _ => w

/-- The trigger-selection part of `Command.check_command`: the command is
handled only if the first token matches a registered trigger and the
command is active and not disabled in the message's channel. -/
def selected_command (dp : Str) (reg : List (Str × Cmd)) (channel message : Str) :
    Option Cmd :=
  match get_by_trigger dp reg (first_token message) with
  | some c => if c.active && channel ∉ c.disabled then some c else none
  | none => none

/- ## Theorems -/

/-- C2 counterexample: compiling the claim's syntax string does not yield a
parameter specification at all — the required remainder clause `<c+>`
follows the optional `[b=x|y]`, so `from_syntax` raises the grammar error
"Optional parameter before required parameter" and no parse can happen. -/
theorem C2_counterexample :
    fromSyn (some "<a> [b=x|y] <c+>".data) = .error .optionalBeforeRequired := by
  decide

/-- C2 (amended): compiling `"<a> [b=x|y] <c+>"` fails with the grammar
error "Optional parameter before required parameter"; with the remainder
made optional (`"<a> [b=x|y] [c+]"`) parsing `"1 x 2 3"` yields
`{a:"1", b:"x", c:"2 3"}`, while parsing `"1 2 3"` raises an
`ArgumentError` because `"2"` is matched positionally against `b`'s
options instead of `b` being skipped. -/
theorem C2_roundtrip_amended :
    fromSyn (some "<a> [b=x|y] <c+>".data) = .error .optionalBeforeRequired ∧
    (∃ es, fromSyn (some "<a> [b=x|y] [c+]".data) = .ok es ∧
      parse_args es (some "1 x 2 3".data) 0 =
        .ok [("a".data, "1".data), ("b".data, "x".data), ("c".data, "2 3".data)] ∧
      parse_args es (some "1 2 3".data) 0 = .error .badOption) := by
  refine ⟨by decide,
    ⟨[.param ⟨"a".data, true, 0, none, false⟩,
      .param ⟨"b".data, false, 0, some ["x".data, "y".data], false⟩,
      .param ⟨"c".data, false, 0, none, true⟩], ?_, ?_, ?_⟩⟩ <;> decide

/-- C3: the duplicate-name check of `from_syntax` compares the set of
PARAMETER names against the length of ALL entries, so any syntax string
containing a literal clause — here `"<a> on"`, one uniquely named
parameter plus one literal — is rejected as "Duplicate parameter(s)"
even though the claim (and the spec's grammar) says it must compile.
The other three conjuncts confirm the three legitimate error conditions. -/
theorem C3_literal_clause_rejected :
    fromSyn (some "<a> on".data) = .error .duplicate ∧
    fromSyn (some "[a] <b>".data) = .error .optionalBeforeRequired ∧
    fromSyn (some "<a+> <b>".data) = .error .remainderNotLast ∧
    fromSyn (some "<a> <a>".data) = .error .duplicate := by
  refine ⟨?_, ?_, ?_, ?_⟩ <;> decide

/-- C9: a JOIN line for a channel the bot does not track is NOT silently
ignored: `message_handler` looks the channel up with
`channels.get(msg.channel, None)`, still invokes `_handle_join` with
`None`, and the handler's attribute access raises `AttributeError`. -/
theorem C9_untracked_channel :
    from_raw ":alice!alice@alice JOIN #other".data =
      .ok (.join ":alice!alice@alice JOIN #other".data "JOIN".data
            "other".data "alice".data) ∧
    message_handler [("main".data, ⟨[]⟩)]
      (.join ":alice!alice@alice JOIN #other".data "JOIN".data
        "other".data "alice".data) =
      .ok (.channelHandler "JOIN".data none) ∧
    handle_join none "alice".data = .error .attributeError := by
  refine ⟨?_, ?_, ?_⟩ <;> decide

theorem ne_nil_of_isEmpty_false {s : Str} (h : s.isEmpty = false) : s ≠ [] := by
  cases s <;> simp_all

theorem mkCapabilities_wf (raw t : Str) (message : Option Str) (m : Message)
    (h : mkCapabilities raw t message = .ok m) : wellFormed m := by
  unfold mkCapabilities at h
  split at h
  · split at h
    · exact Except.noConfusion h
    · injection h with h'; subst h'; trivial
  · exact Except.noConfusion h

theorem mkNames_wf (raw t : Str) (channel message : Option Str) (m : Message)
    (h : mkNames raw t channel message = .ok m) : wellFormed m := by
  unfold mkNames at h
  split at h
  · split at h
    · exact Except.noConfusion h
    · injection h with h'
      subst h'
      rename_i hcond
      simp only [Bool.or_eq_true, not_or, Bool.not_eq_true] at hcond
      exact ne_nil_of_isEmpty_false hcond.1
  · exact Except.noConfusion h

theorem mkJoin_wf (raw t : Str) (channel user : Option Str) (m : Message)
    (h : mkJoin raw t channel user = .ok m) : wellFormed m := by
  unfold mkJoin at h
  split at h
  · split at h
    · exact Except.noConfusion h
    · injection h with h'
      subst h'
      rename_i hcond
      simp only [Bool.or_eq_true, not_or, Bool.not_eq_true] at hcond
      exact ⟨ne_nil_of_isEmpty_false hcond.1, ne_nil_of_isEmpty_false hcond.2⟩
  · exact Except.noConfusion h

theorem mkPart_wf (raw t : Str) (channel user : Option Str) (m : Message)
    (h : mkPart raw t channel user = .ok m) : wellFormed m := by
  unfold mkPart at h
  split at h
  · split at h
    · exact Except.noConfusion h
    · injection h with h'
      subst h'
      rename_i hcond
      simp only [Bool.or_eq_true, not_or, Bool.not_eq_true] at hcond
      exact ⟨ne_nil_of_isEmpty_false hcond.1, ne_nil_of_isEmpty_false hcond.2⟩
  · exact Except.noConfusion h

theorem mkEndOfNames_wf (raw t : Str) (channel : Option Str) (m : Message)
    (h : mkEndOfNames raw t channel = .ok m) : wellFormed m := by
  unfold mkEndOfNames at h
  split at h
  · split at h
    · exact Except.noConfusion h
    · injection h with h'
      subst h'
      rename_i hcond
      simp only [Bool.not_eq_true] at hcond
      exact ne_nil_of_isEmpty_false hcond
  · exact Except.noConfusion h

theorem mkNotice_wf (raw t : Str) (channel message : Option Str) (tags : Tags)
    (m : Message) (h : mkNotice raw t channel message tags = .ok m) :
    wellFormed m := by
  unfold mkNotice at h
  split at h
  · split at h
    · exact Except.noConfusion h
    · injection h with h'
      subst h'
      rename_i hcond
      simp only [Bool.or_eq_true, not_or, Bool.not_eq_true] at hcond
      exact ⟨ne_nil_of_isEmpty_false hcond.1, ne_nil_of_isEmpty_false hcond.2⟩
  · exact Except.noConfusion h

theorem mkUserstate_wf (raw t : Str) (channel : Option Str) (tags : Tags)
    (m : Message) (h : mkUserstate raw t channel tags = .ok m) :
    wellFormed m := by
  unfold mkUserstate at h
  split at h
  · split at h
    · exact Except.noConfusion h
    · injection h with h'
      subst h'
      rename_i hcond
      simp only [Bool.not_eq_true] at hcond
      exact ne_nil_of_isEmpty_false hcond
  · exact Except.noConfusion h

theorem mkRoomstate_wf (raw t : Str) (channel : Option Str) (tags : Tags)
    (m : Message) (h : mkRoomstate raw t channel tags = .ok m) :
    wellFormed m := by
  unfold mkRoomstate at h
  split at h
  · split at h
    · exact Except.noConfusion h
    · injection h with h'
      subst h'
      rename_i hcond
      simp only [Bool.not_eq_true] at hcond
      exact ne_nil_of_isEmpty_false hcond
  · exact Except.noConfusion h

theorem mkClearchat_wf (raw t : Str) (channel message : Option Str) (tags : Tags)
    (m : Message) (h : mkClearchat raw t channel message tags = .ok m) :
    wellFormed m := by
  unfold mkClearchat at h
  split at h
  · split at h
    · exact Except.noConfusion h
    · injection h with h'
      subst h'
      rename_i hcond
      simp only [Bool.not_eq_true] at hcond
      exact ne_nil_of_isEmpty_false hcond
  · exact Except.noConfusion h

theorem mkClearmsg_wf (raw t : Str) (channel message : Option Str) (tags : Tags)
    (m : Message) (h : mkClearmsg raw t channel message tags = .ok m) :
    wellFormed m := by
  unfold mkClearmsg at h
  split at h
  · split at h
    · exact Except.noConfusion h
    · injection h with h'
      subst h'
      rename_i hcond
      simp only [Bool.or_eq_true, not_or, Bool.not_eq_true] at hcond
      exact ⟨ne_nil_of_isEmpty_false hcond.1, ne_nil_of_isEmpty_false hcond.2⟩
  · exact Except.noConfusion h

theorem mkUsernotice_wf (raw t : Str) (channel message : Option Str) (tags : Tags)
    (m : Message) (h : mkUsernotice raw t channel message tags = .ok m) :
    wellFormed m := by
  unfold mkUsernotice at h
  split at h
  · split at h
    · exact Except.noConfusion h
    · injection h with h'
      subst h'
      rename_i hcond
      simp only [Bool.not_eq_true] at hcond
      exact ne_nil_of_isEmpty_false hcond
  · exact Except.noConfusion h

theorem mkWhisper_wf (raw t : Str) (user params message : Option Str)
    (tags : Tags) (m : Message)
    (h : mkWhisper raw t user params message tags = .ok m) : wellFormed m := by
  unfold mkWhisper at h
  split at h
  · split at h
    · exact Except.noConfusion h
    · injection h with h'
      subst h'
      rename_i hcond
      simp only [Bool.or_eq_true, not_or, Bool.not_eq_true] at hcond
      exact ⟨ne_nil_of_isEmpty_false hcond.1.1,
             ne_nil_of_isEmpty_false hcond.1.2,
             ne_nil_of_isEmpty_false hcond.2⟩
  · exact Except.noConfusion h

theorem mkChat_wf (raw t : Str) (channel user message : Option Str)
    (tags : Tags) (m : Message)
    (h : mkChat raw t channel user message tags = .ok m) : wellFormed m := by
  unfold mkChat at h
  split at h
  · split at h
    · exact Except.noConfusion h
    · injection h with h'
      subst h'
      rename_i hcond
      simp only [Bool.or_eq_true, not_or, Bool.not_eq_true] at hcond
      exact ⟨ne_nil_of_isEmpty_false hcond.1.1,
             ne_nil_of_isEmpty_false hcond.1.2,
             ne_nil_of_isEmpty_false hcond.2⟩
  · exact Except.noConfusion h

theorem buildMessage_wf (raw t : Str) (user params channel message : Option Str)
    (tags : Tags) (m : Message)
    (h : buildMessage raw t user params channel message tags = .ok m) :
    wellFormed m := by
  unfold buildMessage at h
  by_cases hc0 : t = "001".data
  · rw [if_pos hc0] at h
    injection h with h2; subst h2; trivial
  · rw [if_neg hc0] at h
    by_cases hc1 : t = "CAP * ACK".data
    · rw [if_pos hc1] at h
      exact mkCapabilities_wf _ _ _ _ h
    · rw [if_neg hc1] at h
      by_cases hc2 : t = "353".data
      · rw [if_pos hc2] at h
        exact mkNames_wf _ _ _ _ _ h
      · rw [if_neg hc2] at h
        by_cases hc3 : t = "RECONNECT".data
        · rw [if_pos hc3] at h
          injection h with h2; subst h2; trivial
        · rw [if_neg hc3] at h
          by_cases hc4 : t = "JOIN".data
          · rw [if_pos hc4] at h
            exact mkJoin_wf _ _ _ _ _ h
          · rw [if_neg hc4] at h
            by_cases hc5 : t = "PART".data
            · rw [if_pos hc5] at h
              exact mkPart_wf _ _ _ _ _ h
            · rw [if_neg hc5] at h
              by_cases hc6 : t = "366".data
              · rw [if_pos hc6] at h
                exact mkEndOfNames_wf _ _ _ _ h
              · rw [if_neg hc6] at h
                by_cases hc7 : t = "NOTICE".data
                · rw [if_pos hc7] at h
                  exact mkNotice_wf _ _ _ _ _ _ h
                · rw [if_neg hc7] at h
                  by_cases hc8 : t = "USERSTATE".data
                  · rw [if_pos hc8] at h
                    exact mkUserstate_wf _ _ _ _ _ h
                  · rw [if_neg hc8] at h
                    by_cases hc9 : t = "ROOMSTATE".data
                    · rw [if_pos hc9] at h
                      exact mkRoomstate_wf _ _ _ _ _ h
                    · rw [if_neg hc9] at h
                      by_cases hc10 : t = "CLEARCHAT".data
                      · rw [if_pos hc10] at h
                        exact mkClearchat_wf _ _ _ _ _ _ h
                      · rw [if_neg hc10] at h
                        by_cases hc11 : t = "CLEARMSG".data
                        · rw [if_pos hc11] at h
                          exact mkClearmsg_wf _ _ _ _ _ _ h
                        · rw [if_neg hc11] at h
                          by_cases hc12 : t = "USERNOTICE".data
                          · rw [if_pos hc12] at h
                            exact mkUsernotice_wf _ _ _ _ _ _ h
                          · rw [if_neg hc12] at h
                            by_cases hc13 : t = "WHISPER".data
                            · rw [if_pos hc13] at h
                              exact mkWhisper_wf _ _ _ _ _ _ _ h
                            · rw [if_neg hc13] at h
                              by_cases hc14 : t = "PRIVMSG".data
                              · rw [if_pos hc14] at h
                                exact mkChat_wf _ _ _ _ _ _ _ h
                              · rw [if_neg hc14] at h
                                injection h with h2; subst h2; trivial

theorem from_raw_core_wf (raw : Str) (tags : Tags) (data1 : List Str)
    (m : Message) (h : from_raw_core raw tags data1 = .ok m) : wellFormed m := by
  unfold from_raw_core at h
  rcases data1 with _ | ⟨c0, data2⟩
  · exact Except.noConfusion h
  · dsimp only at h
    by_cases hping : "PING".data.isPrefixOf (pyStripColon c0) = true
    · rw [if_pos hping] at h
      injection h with h2; subst h2; trivial
    · rw [if_neg hping] at h
      rcases hpt : parse_type (pyStripColon c0) with e | t <;>
        rw [hpt] at h <;> dsimp only at h
      · exact Except.noConfusion h
      · rcases hpp : parse_params (pyStripColon c0) t with e | params <;>
          rw [hpp] at h <;> dsimp only at h
        · exact Except.noConfusion h
        · rcases hpm : parse_message data2 with e | message <;>
            rw [hpm] at h <;> dsimp only at h
          · exact Except.noConfusion h
          · exact buildMessage_wf _ _ _ _ _ _ _ _ h


/- ### Claim C1 -/

/-- C1 counterexample: `from_raw` does not accept every input — on the
empty string, `_parse_type` indexes the second whitespace token of an
empty command and raises `IndexError` instead of returning `Unknown`. -/
theorem C1_counterexample : from_raw [] = .error .indexError := by decide

/-- C1 (amended): `from_raw` can raise on undecodable input (the empty
string raises `IndexError`; typed lines missing a required field raise
`AssertionError`), but whenever it does return a message, every non-base
variant it constructs carries all of its asserted required fields
(present and nonempty). -/
theorem C1_wellformed :
    from_raw [] = .error .indexError ∧
    ∀ (raw : Str) (m : Message), from_raw raw = .ok m → wellFormed m := by
  refine ⟨by decide, ?_⟩
  intro raw m h
  unfold from_raw at h
  rcases hd : splitDataSep raw with _ | ⟨d0, rest⟩ <;> rw [hd] at h
  · exact Except.noConfusion h
  · dsimp only at h
    by_cases hat : "@".data.isPrefixOf d0 = true
    · rw [if_pos hat] at h
      exact from_raw_core_wf _ _ _ _ h
    · rw [if_neg hat] at h
      exact from_raw_core_wf _ _ _ _ h

/-- C1 witness: a well-shaped PRIVMSG line parses to a chat message, and
the amended theorem instantiates to it. -/
theorem C1_witness :
    from_raw ":nick!nick@nick PRIVMSG #chan :hello".data =
      .ok (.chat ":nick!nick@nick PRIVMSG #chan :hello".data "PRIVMSG".data
            "chan".data "nick".data "hello".data []) ∧
    wellFormed (.chat ":nick!nick@nick PRIVMSG #chan :hello".data
      "PRIVMSG".data "chan".data "nick".data "hello".data []) :=
  ⟨by decide,
   C1_wellformed.2 ":nick!nick@nick PRIVMSG #chan :hello".data
     (.chat ":nick!nick@nick PRIVMSG #chan :hello".data "PRIVMSG".data
       "chan".data "nick".data "hello".data []) (by decide)⟩

/- ### Claim C4 -/

/-- C4 counterexample: for a blacklisted, double-cooldown, under-permission
user the combined reason has all four bits (value 15), but `handle_denial`
on it emits NOTHING — the BLACKLIST bit returns early, so no user-visible
chat message is sent for the PERMISSION bit. -/
theorem C4_counterexample :
    check_command_reason [("cmd".data, 30)] [("bob".data, [("cmd".data, 40)])]
      ["bob".data] "cmd".data "bob".data 4 0 = 15 ∧
    handle_denial [("cmd".data, 30)] [("bob".data, [("cmd".data, 40)])]
      "cmd".data "bob".data false 4 15 10 = .ok [] := by
  refine ⟨?_, ?_⟩ <;> decide

/-- C4 (amended): `check_command` ors the three checks, so the combined
reason carries the GlobalCooldown, UserCooldown, Permission and Blacklist
bits (value 15); `handle_denial` on any reason containing the Blacklist
bit returns immediately and emits nothing at all — including no
Permission chat message; only without the Blacklist bit does it emit the
two console cooldown notices and the user-visible Permission message. -/
theorem C4_denial (chanCds : List (Str × Int))
    (userCds : List (Str × List (Str × Int))) (blacklist : List Str)
    (name user : Str) (hide : Bool) (perm role : Nat) (now gv uv : Int)
    (um : List (Str × Int))
    (hbl : user ∈ blacklist)
    (hg : dictGet name chanCds = some gv)
    (hum : dictGet user userCds = some um)
    (huv : dictGet name um = some uv)
    (hrole : check_role perm role = 4) :
    check_command_reason chanCds userCds blacklist name user perm role = 15 ∧
    handle_denial chanCds userCds name user hide perm 15 now = .ok [] ∧
    handle_denial chanCds userCds name user false perm 7 now =
      .ok [.consoleGlobalCd (gv - now), .consoleUserCd (uv - now),
           .chatInsufficientPerms user perm] := by
  refine ⟨?_, ?_, ?_⟩
  · unfold check_command_reason check_cooldowns check_blacklist
    rw [hrole]
    simp [dictContains, hg, hum, huv, hbl]
  · unfold handle_denial
    rw [if_pos (by decide)]
  · unfold handle_denial
    simp [hg, hum, huv]
    decide

/-- C4 witness: the amended theorem at a concrete channel state. -/
theorem C4_witness :
    check_command_reason [("cmd".data, 30)] [("bob".data, [("cmd".data, 40)])]
      ["bob".data] "cmd".data "bob".data 4 2 = 15 ∧
    handle_denial [("cmd".data, 30)] [("bob".data, [("cmd".data, 40)])]
      "cmd".data "bob".data true 4 15 10 = .ok [] ∧
    handle_denial [("cmd".data, 30)] [("bob".data, [("cmd".data, 40)])]
      "cmd".data "bob".data false 4 7 10 =
      .ok [.consoleGlobalCd 20, .consoleUserCd 30,
           .chatInsufficientPerms "bob".data 4] := by
  exact C4_denial [("cmd".data, 30)] [("bob".data, [("cmd".data, 40)])]
    ["bob".data] "cmd".data "bob".data true 4 2 10 30 40 [("cmd".data, 40)]
    (by decide) (by decide) (by decide) (by decide) (by decide)

/- ### Claim C5 -/

/-- C5 counterexample: the claim's "when the counter is below the limit
the message is delivered" omits the activity gate — with the bot globally
inactive and the counter at 0 (below the limit of 20), `_submit` delivers
nothing and does not increment the counter. -/
theorem C5_counterexample :
    (⟨false, true, true, true, true, false, 0, [], 0⟩ : MState).sent <
      ratelimit ⟨false, true, true, true, true, false, 0, [], 0⟩ ∧
    (submit ⟨false, true, true, true, true, false, 0, [], 0⟩ "hi".data).delivered
      = none ∧
    (submit ⟨false, true, true, true, true, false, 0, [], 0⟩ "hi".data).st.sent
      = 0 := by
  refine ⟨?_, ?_, ?_⟩ <;> decide

/-- C5 (amended): provided the bot is globally active, the channel locally
active and the activity policy allows (the gate `_submit` checks first):
the limit is 20, or 100 with elevated privilege; at or above the limit the
message is dropped with a logged warning, the state unchanged (nothing
requeued, nothing delivered); below the limit it is delivered and the
counter incremented by one; hence the counter never exceeds the limit. -/
theorem C5_submit (st : MState) (m : Str)
    (hb : st.botActive = true) (hc : st.chanActive = true)
    (ha : activity_allowed st = true) :
    ratelimit st = (if st.mod then 100 else 20) ∧
    (ratelimit st ≤ st.sent → submit st m = ⟨st, none, true⟩) ∧
    (st.sent < ratelimit st →
      (submit st m).delivered.isSome = true ∧
      (submit st m).st.sent = st.sent + 1 ∧ (submit st m).warned = false) ∧
    (st.sent ≤ ratelimit st → (submit st m).st.sent ≤ ratelimit st) := by
  refine ⟨rfl, fun hge => ?_, fun hlt => ?_, fun hle => ?_⟩
  · have hnl : ¬ st.sent < ratelimit st := Nat.not_lt.mpr hge
    unfold submit
    simp [hb, hc, ha, hnl]
  · unfold submit
    simp [hb, hc, ha, hlt]
  · by_cases hlt : st.sent < ratelimit st
    · unfold submit
      simp [hb, hc, ha, hlt]
      omega
    · unfold submit
      simp [hb, hc, ha, hlt]
      exact hle

/-- C5 witness: the amended theorem at a full window (message dropped with
a warning) and at a non-full window (counter incremented). -/
theorem C5_witness :
    ratelimit ⟨true, true, true, true, true, false, 20, [], 0⟩ = 20 ∧
    submit ⟨true, true, true, true, true, false, 20, [], 0⟩ "hi".data =
      ⟨⟨true, true, true, true, true, false, 20, [], 0⟩, none, true⟩ ∧
    (submit ⟨true, true, true, true, true, false, 3, [], 0⟩ "hi".data).st.sent
      = 4 := by
  refine ⟨?_, ?_, ?_⟩
  · exact (C5_submit ⟨true, true, true, true, true, false, 20, [], 0⟩ "hi".data
      rfl rfl rfl).1
  · exact (C5_submit ⟨true, true, true, true, true, false, 20, [], 0⟩ "hi".data
      rfl rfl rfl).2.1 (by decide)
  · exact ((C5_submit ⟨true, true, true, true, true, false, 3, [], 0⟩ "hi".data
      rfl rfl rfl).2.2.1 (by decide)).2.1

/- ### Claim C6 -/

/-- C6 counterexample: with 20 of 20 sent, the 21st message is accepted
into the queue, but the drain task drops it while the window is still
full: `drain` delivers nothing, the message is gone from the queue, and
after the window counter resets nothing remains to deliver — it is NOT
delivered "when the window resets". -/
theorem C6_counterexample :
    send [] "m21".data = ["m21".data] ∧
    drain ⟨true, true, true, true, true, false, 20, [], 0⟩ ["m21".data] =
      (⟨true, true, true, true, true, false, 20, [], 0⟩, []) ∧
    (drain (resetSent
        (drain ⟨true, true, true, true, true, false, 20, [], 0⟩ ["m21".data]).1)
        []).2 = [] := by
  refine ⟨?_, ?_, ?_⟩ <;> decide

/-- C6 (amended): enqueueing the 21st message is accepted into the queue
(backpressure is not applied at enqueue time), but when the drain task
dequeues it while the counter is at the limit it is dropped with a logged
warning and never delivered — not deferred to the next window — so it can
never be delivered at all, in or out of order. -/
theorem C6_drop_at_limit (st : MState) (m : Str) (hm : m.isEmpty = false)
    (hb : st.botActive = true) (hc : st.chanActive = true)
    (ha : activity_allowed st = true) (hs : st.sent = ratelimit st)
    (ht : st.timeout = 0) :
    send [] m = [m] ∧ drain st [m] = (st, []) ∧ (submit st m).warned = true := by
  have hst : ({ st with timeout := 0 } : MState) = st := by
    rw [← ht]
  have hsub : submit st m = ⟨st, none, true⟩ := by
    have hnl : ¬ st.sent < ratelimit st := by omega
    unfold submit
    simp [hb, hc, ha, hnl]
  refine ⟨?_, ?_, ?_⟩
  · simp [send, hm]
  · unfold drain
    rw [if_neg (by rw [ht]; decide)]
    rw [hst]
    simp [drainGo, hsub]
  · simp [hsub]

/-- C6 witness: the amended theorem at a concrete full window. -/
theorem C6_witness :
    send [] "m21".data = ["m21".data] ∧
    drain ⟨true, true, true, true, true, false, 20, [], 0⟩ ["m21".data] =
      (⟨true, true, true, true, true, false, 20, [], 0⟩, []) := by
  have h := C6_drop_at_limit ⟨true, true, true, true, true, false, 20, [], 0⟩
    "m21".data rfl rfl rfl rfl (by decide) rfl
  exact ⟨h.1, h.2.1⟩

/- ### Claim C7 -/

/-- C7: `check_role` grants any role containing the Owner bit (16)
unconditionally; for non-Owner roles the Sub floor (1) is passed exactly
by roles containing the Sub bit, every other floor exactly when the
role's value is numerically at least the floor's, and every denial is
exactly the Permission bit (4). -/
theorem C7_check_role (perm role : Nat) :
    (role &&& 16 ≠ 0 → check_role perm role = 0) ∧
    (role &&& 16 = 0 → perm = 1 → (check_role perm role = 0 ↔ role &&& 1 ≠ 0)) ∧
    (role &&& 16 = 0 → perm ≠ 1 → (check_role perm role = 0 ↔ perm ≤ role)) ∧
    (check_role perm role = 0 ∨ check_role perm role = 4) := by
  unfold check_role
  refine ⟨fun h => by simp [h], fun h16 hp => ?_, fun h16 hp => ?_, ?_⟩
  · simp only [h16, hp, if_true, ne_eq, not_true_eq_false, if_false, if_pos rfl]
    by_cases h1 : role &&& 1 ≠ 0 <;> simp [h1]
  · simp only [h16, hp, ne_eq, not_true_eq_false, if_false, if_neg hp]
    by_cases h2 : perm ≤ role <;> simp [h2]
  · by_cases h16 : role &&& 16 ≠ 0
    · simp [h16]
    · by_cases hp : perm = 1
      · by_cases h1 : role &&& 1 ≠ 0 <;> simp [h16, hp, h1] <;> omega
      · by_cases h2 : perm ≤ role <;> simp [h16, hp, h2]

/-- C7 witness: a pure-Owner role (no Admin bit) passes the Admin floor,
and a pure-Vip role fails the Sub floor. -/
theorem C7_witness :
    check_role 8 16 = 0 ∧ check_role 1 2 = 4 := by
  constructor
  · exact (C7_check_role 8 16).1 (by decide)
  · rcases (C7_check_role 1 2).2.2.2 with h0 | h4
    · exact absurd (((C7_check_role 1 2).2.1 (by decide) rfl).mp h0) (by decide)
    · exact h4

/- ### Claim C8 -/

/-- C8: in `execute`, `apply_cooldown` is invoked exactly when `parse_args`
succeeded, the body did not raise, and the role is below MOD (4); an
`ArgumentError` from `parse_args` means the body is never invoked and no
cooldown applied; a body error is caught with no cooldown; and a
non-erroring invocation by a role at or above MOD applies no cooldown. -/
theorem C8_cooldown_gate (entries : List Entry) (a : Option Str) (role : Nat)
    (bodyRaises : Bool) :
    ((execute entries a role bodyRaises).cooldownApplied = true ↔
      ((∃ v, parse_args entries a role = .ok v) ∧ bodyRaises = false ∧ role < 4)) ∧
    (∀ e, parse_args entries a role = .error e →
      (execute entries a role bodyRaises).bodyInvoked = false ∧
      (execute entries a role bodyRaises).cooldownApplied = false) ∧
    (bodyRaises = true → (execute entries a role bodyRaises).errorCaught = true ∧
      (execute entries a role bodyRaises).cooldownApplied = false) ∧
    ((∃ v, parse_args entries a role = .ok v) → bodyRaises = false → 4 ≤ role →
      (execute entries a role bodyRaises).cooldownApplied = false) := by
  unfold execute
  cases hpa : parse_args entries a role <;> cases bodyRaises <;> simp [hpa]

/-- C8 witness: the gate theorem at a one-parameter command — cooldown for
a plain user, none for a MOD-level role, no body run on missing args. -/
theorem C8_witness :
    (execute [.param ⟨"a".data, true, 0, none, false⟩] (some "x".data) 0
      false).cooldownApplied = true ∧
    (execute [.param ⟨"a".data, true, 0, none, false⟩] (some "x".data) 4
      false).cooldownApplied = false ∧
    (execute [.param ⟨"a".data, true, 0, none, false⟩] none 0
      false).bodyInvoked = false := by
  refine ⟨?_, ?_, ?_⟩
  · exact (C8_cooldown_gate [.param ⟨"a".data, true, 0, none, false⟩]
      (some "x".data) 0 false).1.mpr
      ⟨⟨[("a".data, "x".data)], by decide⟩, rfl, by decide⟩
  · exact (C8_cooldown_gate [.param ⟨"a".data, true, 0, none, false⟩]
      (some "x".data) 4 false).2.2.2
      ⟨[("a".data, "x".data)], by decide⟩ rfl (by decide)
  · exact ((C8_cooldown_gate [.param ⟨"a".data, true, 0, none, false⟩]
      none 0 false).2.1 .noArgs (by decide)).1

/- ### Claim C10 -/

/-- Lookup after a Python-style dict insertion. -/
theorem dictGet_dictInsert {α : Type} (k k' : Str) (v : α) (d : List (Str × α)) :
    dictGet k (dictInsert k' v d) = if k' = k then some v else dictGet k d := by
  induction d with
  | nil => simp [dictInsert, dictGet]
  | cons hd tl ih =>
    obtain ⟨k'', v''⟩ := hd
    simp only [dictInsert]
    by_cases h1 : k'' = k'
    · rw [if_pos h1]
      subst h1
      by_cases h2 : k'' = k <;> simp [dictGet, h2]
    · rw [if_neg h1]
      by_cases h2 : k'' = k
      · subst h2
        rw [if_neg (fun hh => h1 hh.symm)]
        simp [dictGet]
      · simp [dictGet, h2, ih]

/-- Lookup after registering a command under a list of alias keys. -/
theorem register_alias_lookup (as : List Str) (c : Cmd)
    (r : List (Str × Cmd)) (k : Str) :
    dictGet k (as.foldl (fun r a => dictInsert a c r) r) =
      if k ∈ as then some c else dictGet k r := by
  induction as generalizing r with
  | nil => simp
  | cons a tl ih =>
    simp only [List.foldl_cons, ih, dictGet_dictInsert]
    by_cases h1 : k ∈ tl
    · simp [h1]
    · by_cases h2 : a = k
      · simp [h1, h2]
      · have h2' : ¬ k = a := fun hh => h2 hh.symm
        simp [h1, h2, h2', List.mem_cons]

/-- Any command returned by `get_by_trigger` has exactly that trigger. -/
theorem get_by_trigger_eq (dp : Str) (reg : List (Str × Cmd)) (t : Str)
    (c : Cmd) (h : get_by_trigger dp reg t = some c) : trigger dp c = t := by
  unfold get_by_trigger at h
  have := List.find?_some h
  exact of_decide_eq_true this

/-- C10: registration makes `get_by_name` find the command under its name
and under each alias, while `get_by_trigger` only ever matches a
command's own `prefix + name`; hence a chat message whose first token is
`prefix + alias` (alias distinct from the name) never selects the command
in `check_command`. -/
theorem C10_alias_lookup (dp : Str) (reg : List (Str × Cmd)) (c : Cmd)
    (al : Str) (hal : al ∈ c.aliases) (hne : al ≠ c.name) :
    get_by_name (register reg c) c.name = some c ∧
    (∀ a ∈ c.aliases, get_by_name (register reg c) a = some c) ∧
    (∀ (reg' : List (Str × Cmd)) (t : Str) (c' : Cmd),
      get_by_trigger dp reg' t = some c' → trigger dp c' = t) ∧
    (∀ (reg' : List (Str × Cmd)) (chan m : Str),
      first_token m = c.pfx.getD dp ++ al →
      selected_command dp reg' chan m ≠ some c) := by
  refine ⟨?_, ?_, fun reg' t c' h => get_by_trigger_eq dp reg' t c' h, ?_⟩
  · unfold get_by_name register
    rw [register_alias_lookup]
    by_cases h : c.name ∈ c.aliases <;> simp [h, dictGet_dictInsert]
  · intro a ha
    unfold get_by_name register
    rw [register_alias_lookup]
    simp [ha]
  · intro reg' chan m hm hsel
    unfold selected_command at hsel
    rcases hq : get_by_trigger dp reg' (first_token m) with _ | c0 <;>
      rw [hq] at hsel
    · exact Option.noConfusion hsel
    · dsimp only at hsel
      split at hsel
      · injection hsel with h'
        subst h'
        have htr := get_by_trigger_eq dp reg' (first_token m) c0 hq
        rw [hm] at htr
        unfold trigger at htr
        exact hne (List.append_cancel_left htr).symm
      · exact Option.noConfusion hsel

/-- C10 witness: a `cmds` command with alias `commands` — found by name
lookup under the alias, but a chat line starting `!commands` does not
select it. -/
theorem C10_witness :
    get_by_name (register [] ⟨"cmds".data, none, ["commands".data], true, []⟩)
      "commands".data =
      some ⟨"cmds".data, none, ["commands".data], true, []⟩ ∧
    selected_command "!".data
      (register [] ⟨"cmds".data, none, ["commands".data], true, []⟩)
      "main".data "!commands list".data ≠
      some ⟨"cmds".data, none, ["commands".data], true, []⟩ := by
  have h := C10_alias_lookup "!".data []
    ⟨"cmds".data, none, ["commands".data], true, []⟩ "commands".data
    (by decide) (by decide)
  exact ⟨h.2.1 "commands".data (by decide),
         h.2.2.2 (register [] ⟨"cmds".data, none, ["commands".data], true, []⟩)
           "main".data "!commands list".data (by decide)⟩
